import Mathlib

/-!
Verification of the scoring and recommendation engine of the agent-readiness
repository: a shallow embedding of `src/engine/scorer.ts`, `src/engine/recommender.ts`
and `src/engine/analyzer.ts` (together with the data model of `src/types/index.ts`),
and theorems settling the specification's claims about them.

Embedding conventions:
* TypeScript interfaces become structures; optional fields (`details?`, `skipped?`)
  become `Option` fields defaulting to `none` (JavaScript `undefined`).
* `Map<string, CriterionResult[]>` becomes an association list with first-match lookup
  (a JS `Map` has unique keys, so first-match agrees with it).
* JavaScript numbers are embedded with care for binary64.  The threshold comparison
  `passedCount/total >= 0.8` and `Math.ceil(total * 0.8)` agree in binary64 with the
  exact rational operations at every reachable input (`fl(4k/5k)` is exactly the
  double of `0.8`, and the product error of `t * 0.8` is below half an ulp for all
  `t < 2^53`), so they are embedded as exact rational comparisons, computed in natural
  numbers for the kernel's sake with bridging theorems (`ceilThreshold_eq_ceil`, the
  `Decidable` instance of `passRateMeets`).  `Math.round((passed/total)*100)` does NOT
  agree with exact round-half-up everywhere (at `23/40` binary64 gives 57 where exact
  rounding gives 58), so the percentage is embedded bit-exactly: `fl64q` is round to
  nearest, ties to even, onto the 53-bit-significand grid with unbounded exponent,
  which coincides with IEEE binary64 throughout the normal range; the program's
  quantities (`passed <= total < 2^32` for JavaScript arrays, products below 101)
  never leave that range.
* A TypeScript async check either resolves or rejects; this is embedded as
  `Except String CriterionResult`, the `String` being the thrown error's message.
-/

namespace AgentReadiness

/-- `LEVEL_THRESHOLD = 0.8` from `src/types/index.ts`. -/
def LEVEL_THRESHOLD : ℚ := 0.8

/-- `interface CriterionResult` from `src/types/index.ts`.  `details?` and `skipped?`
are optional; an absent field is `none`. -/
structure CriterionResult where
  criterionId : String
  pass : Bool
  message : String
  details : Option String := none
  skipped : Option Bool := none
deriving Repr, DecidableEq

/-- Truthiness of `r.skipped` (an optional boolean: `undefined` and `false` are falsy). -/
def isSkipped (r : CriterionResult) : Bool :=
  r.skipped.getD false

/-- `interface Criterion` from `src/types/index.ts`, without the `check` function
(the scorer and recommender never call it; the engine's criteria, which do carry
their check, are `EngineCriterion` below). -/
structure Criterion where
  id : String
  name : String
  description : String
  pillarId : String
  level : Nat
  requiresLLM : Bool
deriving Repr, DecidableEq

/-- `interface Pillar` from `src/types/index.ts` (criteria without checks). -/
structure Pillar where
  id : String
  name : String
  description : String
  icon : String
  criteria : List Criterion
deriving Repr, DecidableEq

/-- `Map<string, CriterionResult[]>`, keyed by pillar id. -/
abbrev ResultsMap := List (String × List CriterionResult)

/-- `results.get(key)` on the map embedding: the first entry with this key. -/
def mapGet (results : ResultsMap) (key : String) : Option (List CriterionResult) :=
  (results.find? (fun p => p.1 == key)).map (fun p => p.2)

/-- `interface PillarScore` from `src/types/index.ts`. -/
structure PillarScore where
  pillarId : String
  passed : Nat
  total : Nat
  percentage : Nat
deriving Repr, DecidableEq

/-- Round a rational significand to the nearest integer, ties to even: the rounding
step of IEEE round-to-nearest-even. -/
def rne (x : ℚ) : ℤ :=
  if Int.fract x < 1 / 2 then ⌊x⌋
  else if 1 / 2 < Int.fract x then ⌊x⌋ + 1
  else if Even ⌊x⌋ then ⌊x⌋ else ⌊x⌋ + 1

/-- The binary64 value of a rational: round to nearest, ties to even, onto the grid
of values with a 53-bit significand (nonpositive inputs, which the program only
produces as exact 0, map to 0).  The exponent is unbounded, so this is IEEE binary64
exactly throughout the normal range, which contains every quantity the program
computes here.  `fl64q_nearest` and `fl64q_repr` below prove the rounding correct. -/
def fl64q (q : ℚ) : ℚ :=
  if q ≤ 0 then 0
  else ((rne (q * 2 ^ (52 - Int.log 2 q)) : ℤ) : ℚ) * 2 ^ (Int.log 2 q - 52)

/-- `Math.round((passed / total) * 100)` as the program computes it: the division and
the multiplication each round to nearest binary64 (`fl64q`), and `Math.round` is the
exact round-half-up of the resulting double (ECMA-262: the closest integer, ties
toward positive infinity). -/
def pct64 (passed total : Nat) : Nat :=
  ⌊fl64q (fl64q ((passed : ℚ) / (total : ℚ)) * 100) + 1 / 2⌋₊

/-- `calculatePillarScores` from `src/engine/scorer.ts` (lines 11-31). -/
def calculatePillarScores (pillars : List Pillar) (results : ResultsMap) :
    List PillarScore :=
  pillars.map fun pillar =>
    let pillarResults := (mapGet results pillar.id).getD []
    -- Exclude skipped criteria
    let counted := pillarResults.filter (fun r => ! isSkipped r)
    let passed := (counted.filter (fun r => r.pass)).length
    let total := counted.length
    let percentage := if total > 0 then pct64 passed total else 0
    { pillarId := pillar.id, passed := passed, total := total, percentage := percentage }

/-- One element of the `allCriteria` array of `calculateLevel`: a `(level, pass)` pair. -/
structure LevelPass where
  level : Nat
  pass : Bool
deriving Repr, DecidableEq

/-- The `allCriteria` collection loop of `calculateLevel` (`src/engine/scorer.ts`
lines 37-56): per criterion, look up its matched result by id; drop the criterion
when the matched result is skipped; a missing result counts as `pass = false`. -/
def collectAllCriteria (pillars : List Pillar) (results : ResultsMap) : List LevelPass :=
  pillars.flatMap fun pillar =>
    let pillarResults := (mapGet results pillar.id).getD []
    pillar.criteria.filterMap fun criterion =>
      let result := pillarResults.find? (fun r => r.criterionId == criterion.id)
      if (result.map isSkipped).getD false then none
      else some { level := criterion.level, pass := (result.map (fun r => r.pass)).getD false }

/-- `const levels: MaturityLevel[] = [1, 2, 3, 4, 5]`. -/
def levels : List Nat := [1, 2, 3, 4, 5]

/-- `byLevel.get(lvl)`: the bucket of collected criteria at one level. -/
def levelBucket (allCriteria : List LevelPass) (lvl : Nat) : List LevelPass :=
  allCriteria.filter (fun c => c.level == lvl)

/-- `criteriaAtLevel.filter((c) => c.pass).length`. -/
def passedCountOf (bucket : List LevelPass) : Nat :=
  (bucket.filter (fun c => c.pass)).length

/-- `passRate >= LEVEL_THRESHOLD` with `passRate = passedCount / criteriaAtLevel.length`,
as the exact rational comparison (see the embedding note on numbers). -/
def passRateMeets (passedCount total : Nat) : Prop :=
  (passedCount : ℚ) / (total : ℚ) ≥ LEVEL_THRESHOLD

/-- The rational comparison of `passRateMeets` decided in natural-number arithmetic:
`passedCount/total ≥ 4/5` iff `total > 0 ∧ 4*total ≤ 5*passedCount` (for `total = 0`
the rational quotient is `0 < 4/5`). -/
instance (passedCount total : Nat) : Decidable (passRateMeets passedCount total) :=
  decidable_of_iff (0 < total ∧ 4 * total ≤ 5 * passedCount) (by
    unfold passRateMeets LEVEL_THRESHOLD
    rcases Nat.eq_zero_or_pos total with h0 | hpos
    · subst h0
      simp only [Nat.cast_zero, div_zero, ge_iff_le]
      norm_num
    · have hq : (0 : ℚ) < (total : ℚ) := by exact_mod_cast hpos
      rw [ge_iff_le, show (0.8 : ℚ) = 4 / 5 by norm_num,
        div_le_div_iff (by norm_num) hq]
      constructor
      · rintro ⟨-, h⟩
        have h' : ((4 * total : Nat) : ℚ) ≤ ((5 * passedCount : Nat) : ℚ) := by
          exact_mod_cast h
        push_cast at h'
        linarith
      · intro h
        refine ⟨hpos, ?_⟩
        have h' : ((4 * total : Nat) : ℚ) ≤ ((5 * passedCount : Nat) : ℚ) := by
          push_cast
          linarith
        exact_mod_cast h')

/-- The level walk of `calculateLevel` (`src/engine/scorer.ts` lines 72-95): walk the
given levels in order with accumulator `highestPassed`; an empty bucket advances
(vacuous pass), a bucket meeting the threshold advances, and the first bucket that
fails the threshold stops the walk (`break`). -/
def walkLevels (allCriteria : List LevelPass) : List Nat → Nat → Nat
  | [], highestPassed => highestPassed
  | lvl :: rest, highestPassed =>
    let criteriaAtLevel := levelBucket allCriteria lvl
    if criteriaAtLevel.length = 0 then
      -- If no criteria at this level, consider it passed (vacuous truth)
      walkLevels allCriteria rest lvl
    else if passRateMeets (passedCountOf criteriaAtLevel) criteriaAtLevel.length then
      walkLevels allCriteria rest lvl
    else
      -- Sequential requirement: can't pass level N without N-1
      highestPassed

/-- `Math.ceil(totalAtNext * LEVEL_THRESHOLD)`, computed in natural numbers.
`ceilThreshold_eq_ceil` below proves it equal to `⌈totalAtNext * 0.8⌉₊`. -/
def ceilThreshold (totalAtNext : Nat) : Nat :=
  (4 * totalAtNext + 4) / 5

/-- The `nextLevelProgress` field of `LevelResult` from `src/types/index.ts`. -/
structure NextLevelProgress where
  current : Nat
  needed : Nat
  remaining : Nat
  nextLevel : Option Nat
deriving Repr, DecidableEq

/-- `interface LevelResult` from `src/types/index.ts`. -/
structure LevelResult where
  level : Nat
  nextLevelProgress : NextLevelProgress
deriving Repr, DecidableEq

/-- `calculateLevel` from `src/engine/scorer.ts` (lines 33-122).  `remaining` is
`Math.max(0, needed - current)`, which is exactly truncated natural subtraction. -/
def calculateLevel (pillars : List Pillar) (results : ResultsMap) : LevelResult :=
  let allCriteria := collectAllCriteria pillars results
  let highestPassed := walkLevels allCriteria levels 1
  if highestPassed < 5 then
    let nextLevel := highestPassed + 1
    let nextLevelCriteria := levelBucket allCriteria nextLevel
    let current := passedCountOf nextLevelCriteria
    let needed := ceilThreshold nextLevelCriteria.length
    { level := highestPassed,
      nextLevelProgress :=
        { current := current, needed := needed, remaining := needed - current,
          nextLevel := some nextLevel } }
  else
    { level := highestPassed,
      nextLevelProgress :=
        { current := 0, needed := 0, remaining := 0, nextLevel := none } }

/-! ## Execution engine (`src/engine/analyzer.ts`) -/

/-- `interface ProjectInfo` from `src/types/index.ts`. -/
structure ProjectInfo where
  detectedTypes : List String
  isMonorepo : Bool
  packages : List String
deriving Repr, DecidableEq

/-- The result type of `LLMClient.evaluate` (`src/types/index.ts`). -/
structure LLMEvalResult where
  pass : Bool
  message : String
  details : Option String := none
deriving Repr, DecidableEq

/-- `interface LLMClient`: one operation `evaluate(prompt, context)`.  The call is
async and may reject; embedded as `Except String LLMEvalResult` with the rejection's
error message. -/
structure LLMClient where
  evaluate : String → String → Except String LLMEvalResult

/-- A criterion as the engine sees it: the static fields of `Criterion` together with
its `check` function (`CriterionCheckFn` of `src/types/index.ts`).  The async check
either resolves with a `CriterionResult` or rejects; embedded as `Except String`. -/
structure EngineCriterion where
  id : String
  name : String
  description : String
  pillarId : String
  level : Nat
  requiresLLM : Bool
  check : String → ProjectInfo → Option LLMClient → Except String CriterionResult

/-- A pillar whose criteria carry their checks. -/
structure EnginePillar where
  id : String
  name : String
  description : String
  icon : String
  criteria : List EngineCriterion

/-- `interface AnalysisEngineOptions` from `src/engine/analyzer.ts` (the two progress
callbacks `onPillarStart` / `onPillarComplete` are notification-only and are not part
of this embedding of the result computation). -/
structure AnalysisEngineOptions where
  aiEnabled : Option Bool := none
  llmClient : Option LLMClient := none

/-- The state of `class AnalysisEngine` after construction. -/
structure AnalysisEngine where
  pillars : List EnginePillar
  repoPath : String
  projectInfo : ProjectInfo
  aiEnabled : Bool
  llmClient : Option LLMClient

/-- The `AnalysisEngine` constructor (`src/engine/analyzer.ts` lines 30-43):
`aiEnabled = options?.aiEnabled ?? false`, `llmClient = options?.llmClient`. -/
def mkAnalysisEngine (pillars : List EnginePillar) (repoPath : String)
    (projectInfo : ProjectInfo) (options : Option AnalysisEngineOptions) :
    AnalysisEngine :=
  { pillars := pillars, repoPath := repoPath, projectInfo := projectInfo,
    aiEnabled := (options.bind (fun o => o.aiEnabled)).getD false,
    llmClient := options.bind (fun o => o.llmClient) }

/-- `AnalysisEngine.runCriterion` (`src/engine/analyzer.ts` lines 64-92): skip
LLM-required criteria when AI is not enabled; otherwise invoke the check, catching a
rejection and synthesizing a failing result with the error's message. -/
def runCriterion (e : AnalysisEngine) (criterion : EngineCriterion) : CriterionResult :=
  if criterion.requiresLLM && ! e.aiEnabled then
    { criterionId := criterion.id, pass := false, message := "Requires --ai flag",
      skipped := some true }
  else
    match criterion.check e.repoPath e.projectInfo e.llmClient with
    | .ok result => result
    | .error errorMessage =>
      { criterionId := criterion.id, pass := false,
        message := "Check failed: " ++ errorMessage }

/-- `AnalysisEngine.run` (`src/engine/analyzer.ts` lines 45-62): one entry per pillar
in input order, each holding the pillar's criteria results in criterion order (the
source runs the checks of one pillar concurrently but `Promise.all` preserves the
criterion order of the result list). -/
def AnalysisEngine.run (e : AnalysisEngine) : List (String × List CriterionResult) :=
  e.pillars.map fun pillar => (pillar.id, pillar.criteria.map (runCriterion e))

/-! ## Recommendation ranker (`src/engine/recommender.ts`) -/

/-- The `effort` values of `Recommendation` (`src/types/index.ts`: "low"|"medium"|"high"). -/
inductive Effort where
  | low
  | medium
  | high
deriving Repr, DecidableEq

/-- The `impact` values of `Recommendation` (`src/types/index.ts`: "high"|"medium"|"low"). -/
inductive Impact where
  | high
  | medium
  | low
deriving Repr, DecidableEq

/-- `interface Recommendation` from `src/types/index.ts`. -/
structure Recommendation where
  title : String
  description : String
  reason : String
  effort : Effort
  impact : Impact
  pillarId : String
  criterionId : String
deriving Repr, DecidableEq

/-- The value type of the `CRITERION_INFO` table. -/
structure CriterionInfo where
  description : String
  reason : String
deriving Repr, DecidableEq

/-- The `CRITERION_INFO` record of `src/engine/recommender.ts` (lines 14-285):
actionable description and reason keyed by criterion id. -/
def CRITERION_INFO : List (String × CriterionInfo) := [
  ("linter",
   ⟨"Add a linter like ESLint or Biome to enforce code style and catch common mistakes",
    "Linters give agents instant feedback on style issues, preventing CI failures and reducing review churn"⟩),
  ("formatter",
   ⟨"Configure an auto-formatter such as Prettier or Biome so code style is applied automatically",
    "Auto-formatting removes style debates and lets agents produce consistently formatted code without guesswork"⟩),
  ("type-checker",
   ⟨"Enable strict type checking (e.g. strict mode in tsconfig.json, mypy, or pyright)",
    "Strict types help agents catch errors at compile time instead of at runtime, dramatically improving code reliability"⟩),
  ("pre-commit-hooks",
   ⟨"Set up pre-commit hooks with Husky, Lefthook, or pre-commit to run checks before every commit",
    "Pre-commit hooks provide a fast feedback loop so agents discover issues before pushing code"⟩),
  ("editorconfig",
   ⟨"Create an .editorconfig file to standardize indentation, line endings, and charset across editors",
    "EditorConfig ensures agents produce files with correct whitespace and encoding regardless of tooling"⟩),
  ("test-framework",
   ⟨"Configure a test framework such as Jest, Vitest, pytest, or Go testing with a config file",
    "A configured test framework lets agents write and run tests to verify their changes automatically"⟩),
  ("test-files",
   ⟨"Add test files alongside source code following standard naming conventions (*.test.*, *.spec.*, etc.)",
    "Existing tests give agents examples to follow and a safety net to validate new code against"⟩),
  ("test-script",
   ⟨"Define a 'test' script in package.json or a test target in a Makefile so tests can be run with a single command",
    "A standard test command allows agents to verify changes without guessing how to run the test suite"⟩),
  ("coverage",
   ⟨"Set up code coverage reporting in your test framework configuration",
    "Coverage metrics help agents understand which parts of the codebase are well-tested and which need attention"⟩),
  ("e2e-tests",
   ⟨"Add end-to-end or integration tests using Playwright, Cypress, or a similar framework",
    "E2E tests give agents confidence that the whole application works correctly after changes, not just individual units"⟩),
  ("readme",
   ⟨"Create a comprehensive README.md with project overview, setup instructions, and usage examples",
    "A good README helps agents understand the project context, conventions, and how to get started quickly"⟩),
  ("contributing",
   ⟨"Add a CONTRIBUTING.md with development workflow, coding standards, and PR guidelines",
    "Contributing guidelines teach agents the team's workflow so their PRs match expectations from the start"⟩),
  ("api-docs",
   ⟨"Add API documentation using OpenAPI/Swagger specs, JSDoc, TypeDoc, or a dedicated docs folder",
    "API docs let agents understand available endpoints, data shapes, and contracts without reading every source file"⟩),
  ("codeowners",
   ⟨"Create a CODEOWNERS file to define ownership for different parts of the codebase",
    "CODEOWNERS helps agents understand who to tag for reviews and which areas have strict oversight"⟩),
  ("ai-context",
   ⟨"Add AI context files such as CLAUDE.md, .cursorrules, or .github/copilot-instructions.md with project-specific guidance",
    "AI context files give agents tailored instructions about architecture decisions, patterns to follow, and pitfalls to avoid"⟩),
  ("architecture-docs",
   ⟨"Create architecture documentation (ARCHITECTURE.md or docs/adr/) describing system design and decisions",
    "Architecture docs help agents make design choices consistent with the existing system instead of guessing"⟩),
  ("lock-file",
   ⟨"Commit a dependency lock file (package-lock.json, bun.lockb, yarn.lock, poetry.lock, etc.)",
    "Lock files ensure agents install the exact same dependency versions, preventing 'works on my machine' issues"⟩),
  ("containerization",
   ⟨"Add a Dockerfile, docker-compose.yml, or .devcontainer configuration for reproducible environments",
    "Containerization gives agents a fully reproducible environment, eliminating setup discrepancies"⟩),
  ("env-docs",
   ⟨"Create a .env.example or .env.template documenting all required environment variables",
    "Environment variable documentation lets agents understand required configuration without accessing secrets"⟩),
  ("setup-script",
   ⟨"Add a setup script (Makefile, scripts/setup.sh, or npm run setup) to automate development environment setup",
    "A one-command setup lets agents bootstrap the project quickly and correctly every time"⟩),
  ("version-pinned",
   ⟨"Pin the runtime version with .nvmrc, .node-version, .python-version, .tool-versions, or .mise.toml",
    "Pinned runtime versions prevent agents from hitting version incompatibilities during execution"⟩),
  ("ci-config",
   ⟨"Set up a CI pipeline configuration (GitHub Actions, GitLab CI, CircleCI, or similar)",
    "CI pipelines give agents automated feedback on whether their changes pass all quality gates"⟩),
  ("ci-tests",
   ⟨"Ensure your CI pipeline runs the test suite on every push and pull request",
    "Running tests in CI means agents get immediate feedback if their changes break existing functionality"⟩),
  ("ci-linters",
   ⟨"Add linting and formatting checks to your CI pipeline",
    "CI lint checks catch style issues agents may miss locally, keeping the codebase consistent"⟩),
  ("build-step",
   ⟨"Add an automated build step to your CI pipeline or package.json scripts",
    "An automated build step verifies that agents' changes compile and bundle correctly before merging"⟩),
  ("deploy-pipeline",
   ⟨"Configure a deploy pipeline or stage in your CI/CD system for automated deployments",
    "Automated deployments let agents' changes reach production safely through a controlled pipeline"⟩),
  ("branch-protection",
   ⟨"Document or configure branch protection rules requiring reviews and passing checks before merging",
    "Branch protection ensures agents' PRs go through proper review and validation before reaching main"⟩),
  ("outdated-deps",
   ⟨"Update critically outdated dependencies to their latest stable versions",
    "Current dependencies reduce compatibility issues agents encounter and ensure security patches are applied"⟩),
  ("dead-code",
   ⟨"Configure dead code detection using Knip, ts-unused-exports, or a similar tool",
    "Dead code detection helps agents avoid modifying unused code and keeps the codebase lean"⟩),
  ("bundle-analysis",
   ⟨"Set up bundle analysis with webpack-bundle-analyzer, @next/bundle-analyzer, or a similar tool",
    "Bundle analysis helps agents understand the impact of adding dependencies on application size"⟩),
  ("security-scanning",
   ⟨"Configure security scanning with CodeQL, Snyk, Trivy, or Semgrep in your CI pipeline",
    "Security scanning catches vulnerabilities agents might introduce before they reach production"⟩),
  ("secrets-detection",
   ⟨"Set up secrets detection using Gitleaks, detect-secrets, or GitGuardian",
    "Secrets detection prevents agents from accidentally committing API keys, tokens, or credentials"⟩),
  ("license",
   ⟨"Add a LICENSE file specifying the project's open-source or proprietary license",
    "A clear license file helps agents understand what code and dependencies they can use"⟩),
  ("security-policy",
   ⟨"Create a SECURITY.md file describing how to report vulnerabilities",
    "A security policy gives agents guidance on handling security-sensitive changes appropriately"⟩),
  ("dep-updates",
   ⟨"Configure automated dependency updates with Dependabot or Renovate",
    "Automated dependency updates keep the project current so agents work with well-maintained libraries"⟩),
  ("readme-quality",
   ⟨"Improve your README content: add clear sections for installation, usage, architecture, and contributing",
    "A high-quality README gives agents rich context about the project beyond just file presence"⟩),
  ("docs-agent-friendliness",
   ⟨"Improve documentation to be more AI-agent-friendly: explain project structure, coding conventions, and testing patterns",
    "Agent-friendly docs help autonomous coding agents make correct changes without constant human guidance"⟩),
  ("test-quality",
   ⟨"Improve test quality: add descriptive names, cover edge cases, and test behavior rather than implementation",
    "High-quality tests give agents confidence that their changes work correctly and don't break existing behavior"⟩),
  ("naming-conventions",
   ⟨"Establish and document consistent naming conventions for files, functions, and variables",
    "Consistent naming lets agents predict correct patterns when writing new code, reducing review friction"⟩),
  ("inline-docs-quality",
   ⟨"Add meaningful inline documentation and comments to key modules and public APIs",
    "Inline docs help agents understand intent and edge cases when modifying complex logic"⟩),
  ("code-structure",
   ⟨"Organize code into a consistent folder structure with clear naming conventions",
    "Consistent structure lets agents predict where to find and place code without trial and error"⟩),
  ("file-size",
   ⟨"Break down large files and functions into smaller, focused modules",
    "Smaller files are easier for agents to understand, modify, and test without unintended side effects"⟩)]

/-- The `EFFORT_MAP` record of `src/engine/recommender.ts` (lines 291-339). -/
def EFFORT_MAP : List (String × Effort) := [
  ("editorconfig", .low), ("license", .low), ("readme", .low), ("contributing", .low),
  ("codeowners", .low), ("security-policy", .low), ("ai-context", .low),
  ("env-docs", .low), ("lock-file", .low), ("version-pinned", .low),
  ("linter", .medium), ("formatter", .medium), ("type-checker", .medium),
  ("pre-commit-hooks", .medium), ("test-framework", .medium), ("test-files", .medium),
  ("test-script", .medium), ("ci-config", .medium), ("ci-tests", .medium),
  ("ci-linters", .medium), ("build-step", .medium), ("setup-script", .medium),
  ("api-docs", .medium), ("dead-code", .medium), ("secrets-detection", .medium),
  ("dep-updates", .medium), ("branch-protection", .medium), ("outdated-deps", .medium),
  ("e2e-tests", .high), ("coverage", .high), ("containerization", .high),
  ("deploy-pipeline", .high), ("security-scanning", .high), ("architecture-docs", .high),
  ("bundle-analysis", .high), ("readme-quality", .high),
  ("docs-agent-friendliness", .high), ("test-quality", .high),
  ("naming-conventions", .medium), ("inline-docs-quality", .high),
  ("code-structure", .high), ("file-size", .high)]

/-- `IMPACT_ORDER` (`src/engine/recommender.ts` lines 345-349). -/
def IMPACT_ORDER : Impact → Nat
  | .high => 0
  | .medium => 1
  | .low => 2

/-- `EFFORT_ORDER` (`src/engine/recommender.ts` lines 351-355). -/
def EFFORT_ORDER : Effort → Nat
  | .low => 0
  | .medium => 1
  | .high => 2

/-- `determineImpact` (`src/engine/recommender.ts` lines 357-365). -/
def determineImpact (criterionLevel currentLevel : Nat) : Impact :=
  let nextLevel := currentLevel + 1
  if criterionLevel = nextLevel then .high
  else if criterionLevel = currentLevel + 2 then .medium
  else .low

/-- One element of the `failedItems` array of `generateRecommendations`. -/
structure FailedItem where
  pillarId : String
  criterionId : String
  criterionName : String
  criterionLevel : Nat
deriving Repr, DecidableEq

/-- Step 1 of `generateRecommendations` (`src/engine/recommender.ts` lines 379-405):
collect every criterion whose matched result exists, failed and is not skipped. -/
def collectFailedItems (pillars : List Pillar) (results : ResultsMap) : List FailedItem :=
  pillars.flatMap fun pillar =>
    let pillarResults := (mapGet results pillar.id).getD []
    pillar.criteria.filterMap fun criterion =>
      match pillarResults.find? (fun r => r.criterionId == criterion.id) with
      | some result =>
        if ! result.pass && ! isSkipped result then
          some { pillarId := pillar.id, criterionId := criterion.id,
                 criterionName := criterion.name, criterionLevel := criterion.level }
        else none
      | none => none

/-- Step 2 of `generateRecommendations` (`src/engine/recommender.ts` lines 408-426):
build a `Recommendation` from one failed item, with the table lookups and their
generic fallbacks. -/
def buildRecommendation (currentLevel : Nat) (item : FailedItem) : Recommendation :=
  let info := (CRITERION_INFO.find? (fun p => p.1 == item.criterionId)).map (fun p => p.2)
  let effort := ((EFFORT_MAP.find? (fun p => p.1 == item.criterionId)).map (fun p => p.2)).getD .medium
  let impact := determineImpact item.criterionLevel currentLevel
  { title := item.criterionName,
    description := ((info.map (fun i => i.description)).getD
      ("Address the failing \"" ++ item.criterionId ++ "\" criterion to improve agent readiness")),
    reason := ((info.map (fun i => i.reason)).getD
      "Meeting this criterion improves the codebase's readiness for autonomous AI agents"),
    effort := effort, impact := impact,
    pillarId := item.pillarId, criterionId := item.criterionId }

/-- The criterion level the sort comparator recovers for a recommendation
(`src/engine/recommender.ts` lines 432-437): the first failed item with this
recommendation's `criterionId` and `pillarId`.  The source asserts the lookup
non-null (`!`); for the lists `generateRecommendations` builds it always succeeds,
and the embedding's default `0` is never a criterion level there. -/
def levelOfRec (failedItems : List FailedItem) (a : Recommendation) : Nat :=
  ((failedItems.find? (fun f => f.criterionId == a.criterionId && f.pillarId == a.pillarId)).map
    (fun f => f.criterionLevel)).getD 0

/-- The 3-key comparator of step 3 of `generateRecommendations`
(`src/engine/recommender.ts` lines 431-450), as a JavaScript comparator returning a
signed number. -/
def recCompare (failedItems : List FailedItem) (nextLevel : Nat)
    (a b : Recommendation) : Int :=
  let aIsNext : Int := if levelOfRec failedItems a = nextLevel then 0 else 1
  let bIsNext : Int := if levelOfRec failedItems b = nextLevel then 0 else 1
  if aIsNext ≠ bIsNext then aIsNext - bIsNext
  else
    let impactDiff : Int := (IMPACT_ORDER a.impact : Int) - (IMPACT_ORDER b.impact : Int)
    if impactDiff ≠ 0 then impactDiff
    else (EFFORT_ORDER a.effort : Int) - (EFFORT_ORDER b.effort : Int)

/-- Steps 1-3 of `generateRecommendations`: the sorted recommendation list before the
cap.  `Array.prototype.sort` is stable and consistent with the comparator; it is
embedded as a stable merge sort on `compare ≤ 0`. -/
def sortedRecommendations (pillars : List Pillar) (results : ResultsMap)
    (currentLevel : Nat) : List Recommendation :=
  let failedItems := collectFailedItems pillars results
  let recommendations := failedItems.map (buildRecommendation currentLevel)
  let nextLevel := currentLevel + 1
  recommendations.mergeSort (fun a b => decide (recCompare failedItems nextLevel a b ≤ 0))

/-- `generateRecommendations` (`src/engine/recommender.ts` lines 371-454): the sorted
list truncated to at most 10 entries (`_pillarScores` is unused by the source too). -/
def generateRecommendations (pillars : List Pillar) (results : ResultsMap)
    (_pillarScores : List PillarScore) (levelResult : LevelResult) :
    List Recommendation :=
  (sortedRecommendations pillars results levelResult.level).take 10

/-! ## Specification-side definitions

These state the spec's descriptions declaratively; the claim theorems compare them
with the operational definitions above. -/

/-- The spec's per-level pass condition: an empty (skip-filtered) bucket is vacuously
passed, a non-empty bucket passes exactly when `passedCount/bucketSize ≥ 0.8`. -/
def levelVacuouslyOrMeets (allCriteria : List LevelPass) (lvl : Nat) : Prop :=
  levelBucket allCriteria lvl = [] ∨
    passRateMeets (passedCountOf (levelBucket allCriteria lvl))
      (levelBucket allCriteria lvl).length

instance (allCriteria : List LevelPass) (lvl : Nat) :
    Decidable (levelVacuouslyOrMeets allCriteria lvl) := by
  unfold levelVacuouslyOrMeets
  infer_instance

/-- The unbroken chain from level 1: every level `1..L` is empty or at threshold. -/
def chainPassed (allCriteria : List LevelPass) (L : Nat) : Prop :=
  ∀ lvl ∈ List.range' 1 L, levelVacuouslyOrMeets allCriteria lvl

instance (allCriteria : List LevelPass) (L : Nat) :
    Decidable (chainPassed allCriteria L) := by
  unfold chainPassed
  infer_instance

/-- The spec's achieved level: the highest level in `1..5` whose whole chain from
level 1 is unbroken, with floor 1. -/
def specLevel (allCriteria : List LevelPass) : Nat :=
  ((List.range' 1 5).filter (fun L => decide (chainPassed allCriteria L))).foldl max 1

/-- The spec-side per-pillar score (`§4.2 Per-pillar scoring`, stated with `countP`),
with the percentage as the program computes it: `Math.round((passed/total)*100)` in
binary64 (`pct64`).  The original claim's exact round-half-up reading is refuted by
`claim4_counterexample` (23 of 40 gives 57, not `round(57.5) = 58`). -/
def pillarScoreSpec (results : ResultsMap) (pillar : Pillar) : PillarScore :=
  let counted := ((mapGet results pillar.id).getD []).filter (fun r => ! isSkipped r)
  { pillarId := pillar.id,
    passed := counted.countP (fun r => r.pass),
    total := counted.length,
    percentage :=
      if 0 < counted.length then pct64 (counted.countP (fun r => r.pass)) counted.length
      else 0 }

/-- The result matched to a criterion: the first result of its pillar's list carrying
its id. -/
def matchedResult (results : ResultsMap) (pillar : Pillar) (criterion : Criterion) :
    Option CriterionResult :=
  ((mapGet results pillar.id).getD []).find? (fun r => r.criterionId == criterion.id)

/-- Whether the matched result of a criterion exists and is skipped. -/
def matchedSkipped (results : ResultsMap) (pillar : Pillar) (criterion : Criterion) :
    Bool :=
  match matchedResult results pillar criterion with
  | some r => isSkipped r
  | none => false

/-- The `(level, pass)` pair a criterion contributes to level computation: its level,
and the matched result's `pass` (`false` when there is no matched result). -/
def levelPassOf (results : ResultsMap) (pillar : Pillar) (criterion : Criterion) :
    LevelPass :=
  { level := criterion.level,
    pass := ((matchedResult results pillar criterion).map (fun r => r.pass)).getD false }

/-- `AddSkipped rs rs'`: `rs'` is `rs` with any number of `skipped` results inserted
at any positions. -/
inductive AddSkipped : List CriterionResult → List CriterionResult → Prop where
  | nil : AddSkipped [] []
  | keep (r : CriterionResult) {rs rs' : List CriterionResult} :
      AddSkipped rs rs' → AddSkipped (r :: rs) (r :: rs')
  | extra (r : CriterionResult) {rs rs' : List CriterionResult} :
      isSkipped r = true → AddSkipped rs rs' → AddSkipped rs (r :: rs')

/-- The spec's recommendation domain: `(pillarId, criterionId)` of every criterion
whose matched result exists, failed and is not skipped. -/
def failedCriterionIds (pillars : List Pillar) (results : ResultsMap) :
    List (String × String) :=
  pillars.flatMap fun pillar =>
    (pillar.criteria.filter (fun c =>
      match matchedResult results pillar c with
      | some r => ! r.pass && ! isSkipped r
      | none => false)).map (fun c => (pillar.id, c.id))

/-- The 3-key sort rank of a recommendation, encoded lexicographically in one natural
number (each key is at most 2): next-level-or-not, then `IMPACT_ORDER`, then
`EFFORT_ORDER`.  `recCompare` orders exactly by this rank (claim 9). -/
def recKey (failedItems : List FailedItem) (nextLevel : Nat) (a : Recommendation) :
    Nat :=
  (if levelOfRec failedItems a = nextLevel then 0 else 1) * 9 +
    IMPACT_ORDER a.impact * 3 + EFFORT_ORDER a.effort

/-! ## Concrete fixtures for the spec's end-to-end scenarios -/

/-- A criterion of pillar "p1" with the given id and level. -/
def mkCrit (id : String) (lvl : Nat) : Criterion :=
  { id := id, name := id, description := "", pillarId := "p1", level := lvl,
    requiresLLM := false }

/-- Scenario for the inclusive threshold: 10 criteria at level 2 (8 of them passing)
and one failing criterion at level 3, in one pillar. -/
def scenC_pillars : List Pillar :=
  [{ id := "p1", name := "P", description := "", icon := "",
     criteria := (List.range 10).map (fun i => mkCrit (toString i) 2) ++ [mkCrit "b1" 3] }]

/-- Results for `scenC_pillars`: criteria `0..7` pass, `8`, `9` and `b1` fail. -/
def scenC_results : ResultsMap :=
  [("p1",
    ((List.range 10).map (fun i =>
      ({ criterionId := toString i, pass := decide (i < 8), message := "" } :
        CriterionResult))) ++
    [{ criterionId := "b1", pass := false, message := "" }])]

/-- Scenario B of the spec: one pillar with one criterion at level 3 whose only
result is skipped. -/
def scenB_pillars : List Pillar :=
  [{ id := "p1", name := "P", description := "", icon := "",
     criteria := [mkCrit "c1" 3] }]

/-- The single, skipped result of scenario B. -/
def scenB_results : ResultsMap :=
  [("p1", [{ criterionId := "c1", pass := false, message := "m", skipped := some true }])]

/-- Scenario A of the spec: 5 pillars, each with one passing level-1 criterion and one
failing level-2 criterion. -/
def scenA_pillars : List Pillar :=
  (List.range 5).map fun i =>
    { id := toString i, name := "", description := "", icon := "",
      criteria := [{ id := "l1", name := "l1", description := "", pillarId := toString i,
                     level := 1, requiresLLM := false },
                   { id := "l2", name := "l2", description := "", pillarId := toString i,
                     level := 2, requiresLLM := false }] }

/-- Results for `scenA_pillars`: every `l1` passes, every `l2` fails. -/
def scenA_results : ResultsMap :=
  (List.range 5).map fun i =>
    (toString i,
     [({ criterionId := "l1", pass := true, message := "" } : CriterionResult),
      { criterionId := "l2", pass := false, message := "" }])

/-- The project metadata of the engine fixtures. -/
def fixtureInfo : ProjectInfo := { detectedTypes := [], isMonorepo := false, packages := [] }

/-- An LLM-required criterion whose check resolves with a passing result. -/
def llmCrit : EngineCriterion :=
  { id := "readme-quality", name := "README quality", description := "",
    pillarId := "documentation", level := 4, requiresLLM := true,
    check := fun _ _ _ =>
      .ok { criterionId := "readme-quality", pass := true, message := "ok" } }

/-- An engine with AI disabled and no evaluator. -/
def engineNoAi : AnalysisEngine :=
  { pillars := [], repoPath := "/repo", projectInfo := fixtureInfo,
    aiEnabled := false, llmClient := none }

/-- An engine with AI enabled but no evaluator supplied. -/
def engineAiNoClient : AnalysisEngine :=
  { pillars := [], repoPath := "/repo", projectInfo := fixtureInfo,
    aiEnabled := true, llmClient := none }

/-- A passing, non-skipped result (criterion ids play no role in pillar scoring). -/
def cxPassResult : CriterionResult := { criterionId := "c", pass := true, message := "" }

/-- A failing, non-skipped result. -/
def cxFailResult : CriterionResult := { criterionId := "c", pass := false, message := "" }

/-- One pillar for the percentage counterexample (criteria are irrelevant to
`calculatePillarScores`). -/
def cxPillars : List Pillar :=
  [{ id := "p1", name := "P", description := "", icon := "", criteria := [] }]

/-- 40 non-skipped results for pillar "p1", 23 of them passing: binary64
`Math.round((23/40)*100)` is 57, while exact round-half-up of 57.5 is 58. -/
def cxResults : ResultsMap :=
  [("p1", List.replicate 23 cxPassResult ++ List.replicate 17 cxFailResult)]

/-! ## Helper lemmas -/

/-- `ceilThreshold` is `Math.ceil` of the exact rational `n * 0.8`. -/
theorem ceilThreshold_eq_ceil (n : Nat) :
    ceilThreshold n = ⌈(n : ℚ) * LEVEL_THRESHOLD⌉₊ := by
  have hx : (n : ℚ) * LEVEL_THRESHOLD = ((4 * n : ℕ) : ℚ) / ((5 : ℕ) : ℚ) := by
    unfold LEVEL_THRESHOLD
    push_cast
    norm_num
    ring
  unfold ceilThreshold
  rw [hx]
  refine le_antisymm ?_ ?_
  · by_cases hk : (4 * n + 4) / 5 = 0
    · rw [hk]
      exact Nat.zero_le _
    · refine Nat.le_of_pred_lt (Nat.lt_ceil.mpr ?_)
      rw [Nat.pred_eq_sub_one, lt_div_iff (by norm_num)]
      have hlt : 5 * ((4 * n + 4) / 5 - 1) < 4 * n := by omega
      have hq := (Nat.cast_lt (α := ℚ)).mpr hlt
      push_cast at hq ⊢
      nlinarith [hq]
  · refine Nat.ceil_le.mpr ?_
    have h5 : 4 * n ≤ 5 * ((4 * n + 4) / 5) := by omega
    rw [div_le_iff (by norm_num)]
    have hq := (Nat.cast_le (α := ℚ)).mpr h5
    push_cast at hq ⊢
    nlinarith [hq]

/-- Power-of-two bookkeeping over ℚ with integer exponents. -/
theorem two_zpow_add (a b : ℤ) : (2 : ℚ) ^ a * (2 : ℚ) ^ b = 2 ^ (a + b) :=
  (zpow_add₀ (by norm_num) a b).symm

/-- The rounded significand is within half a unit of the input. -/
theorem abs_sub_rne_le_half (x : ℚ) : |x - (rne x : ℚ)| ≤ 1 / 2 := by
  have h0 := Int.fract_nonneg x
  have h1 := Int.fract_lt_one x
  have hfl := Int.self_sub_floor x
  rw [abs_le]
  unfold rne
  by_cases hc1 : Int.fract x < 1 / 2
  · rw [if_pos hc1]
    constructor <;> linarith
  · rw [if_neg hc1]
    by_cases hc2 : 1 / 2 < Int.fract x
    · rw [if_pos hc2]
      push_cast
      constructor <;> linarith
    · rw [if_neg hc2]
      have heq : Int.fract x = 1 / 2 := le_antisymm (not_lt.mp hc2) (not_lt.mp hc1)
      by_cases he : Even ⌊x⌋
      · rw [if_pos he]
        constructor <;> linarith
      · rw [if_neg he]
        push_cast
        constructor <;> linarith

/-- `rne` evaluation when the input sits in the lower half of an integer gap. -/
theorem rne_eval_lo (x : ℚ) (z : ℤ) (h1 : (z : ℚ) ≤ x) (h2 : x < (z : ℚ) + 1 / 2) :
    rne x = z := by
  have hfl : ⌊x⌋ = z := Int.floor_eq_iff.mpr ⟨h1, by linarith⟩
  have hfr : Int.fract x < 1 / 2 := by
    have hs := Int.self_sub_floor x
    rw [hfl] at hs
    linarith
  unfold rne
  rw [if_pos hfr, hfl]

/-- `rne` evaluation when the input sits in the upper half of an integer gap. -/
theorem rne_eval_hi (x : ℚ) (z : ℤ) (h1 : (z : ℚ) - 1 / 2 < x) (h2 : x < z) :
    rne x = z := by
  have hfl : ⌊x⌋ = z - 1 := Int.floor_eq_iff.mpr ⟨by push_cast; linarith, by push_cast; linarith⟩
  have hfr : 1 / 2 < Int.fract x := by
    have hs := Int.self_sub_floor x
    rw [hfl] at hs
    push_cast at hs
    linarith
  unfold rne
  rw [if_neg (by linarith), if_pos hfr, hfl]
  omega

/-- `rne x` is a nearest integer to `x`. -/
theorem rne_nearest (x : ℚ) (z : ℤ) : |x - (rne x : ℚ)| ≤ |x - (z : ℚ)| := by
  rcases le_or_lt (1 / 2) |x - (z : ℚ)| with h | h
  · exact le_trans (abs_sub_rne_le_half x) h
  · have hb := abs_lt.mp h
    have hz : rne x = z := by
      rcases le_or_lt (z : ℚ) x with hzx | hzx
      · exact rne_eval_lo x z hzx (by linarith [hb.2])
      · exact rne_eval_hi x z (by linarith [hb.1]) hzx
    rw [hz]

/-- `Int.log 2` is characterized by the binade bounds. -/
theorem int_log2_eq {q : ℚ} {e : ℤ} (h1 : (2 : ℚ) ^ e ≤ q) (h2 : q < (2 : ℚ) ^ (e + 1)) :
    Int.log 2 q = e := by
  have hq : 0 < q := lt_of_lt_of_le (zpow_pos (by norm_num) e) h1
  have hb1 : (2 : ℚ) ^ (Int.log 2 q) ≤ q := by
    have := Int.zpow_log_le_self (b := 2) (by norm_num) hq
    push_cast at this
    exact this
  have hb2 : q < (2 : ℚ) ^ (Int.log 2 q + 1) := by
    have := Int.lt_zpow_succ_log_self (b := 2) (by norm_num) q
    push_cast at this
    exact this
  by_contra hne
  rcases lt_or_gt_of_ne hne with hlt | hgt
  · have hle : (2 : ℚ) ^ (Int.log 2 q + 1) ≤ (2 : ℚ) ^ e :=
      zpow_le_zpow_right₀ (by norm_num) (by omega)
    linarith
  · have hle : (2 : ℚ) ^ (e + 1) ≤ (2 : ℚ) ^ (Int.log 2 q) :=
      zpow_le_zpow_right₀ (by norm_num) (by omega)
    linarith

/-- Evaluation rule for `fl64q` from the binade bounds and the rounded significand. -/
theorem fl64q_eval (q : ℚ) (e m : ℤ) (hq : 0 < q)
    (h1 : (2 : ℚ) ^ e ≤ q) (h2 : q < (2 : ℚ) ^ (e + 1))
    (hm : rne (q * 2 ^ (52 - e)) = m) :
    fl64q q = (m : ℚ) * 2 ^ (e - 52) := by
  unfold fl64q
  rw [if_neg (not_le.mpr hq), int_log2_eq h1 h2, hm]

/-- The rounded significand of `fl64q`: value, bounds, half-ulp error, and
grid-nearest property. -/
theorem fl64q_spec (q : ℚ) (hq : 0 < q) :
    ∃ m : ℤ, fl64q q = (m : ℚ) * 2 ^ (Int.log 2 q - 52) ∧
      2 ^ 52 ≤ m ∧ m ≤ 2 ^ 53 ∧
      |q - fl64q q| ≤ 2 ^ (Int.log 2 q - 53) ∧
      (∀ z : ℤ, |q - fl64q q| ≤ |q - (z : ℚ) * 2 ^ (Int.log 2 q - 52)|) := by
  set e := Int.log 2 q with he
  set x : ℚ := q * 2 ^ (52 - e) with hx
  have hb1 : (2 : ℚ) ^ e ≤ q := by
    have := Int.zpow_log_le_self (b := 2) (by norm_num) hq
    push_cast at this
    exact this
  have hb2 : q < (2 : ℚ) ^ (e + 1) := by
    have := Int.lt_zpow_succ_log_self (b := 2) (by norm_num) q
    push_cast at this
    exact this
  have hp52 : (0 : ℚ) < 2 ^ (52 - e) := zpow_pos (by norm_num) _
  have hp : (0 : ℚ) < 2 ^ (e - 52) := zpow_pos (by norm_num) _
  have hmulinv : (2 : ℚ) ^ (52 - e) * (2 : ℚ) ^ (e - 52) = 1 := by
    rw [two_zpow_add]
    have hexp : 52 - e + (e - 52) = (0 : ℤ) := by omega
    rw [hexp, zpow_zero]
  have hqx : q = x * 2 ^ (e - 52) := by
    rw [hx, mul_assoc, hmulinv, mul_one]
  have hxlo : (2 : ℚ) ^ (52 : ℤ) ≤ x := by
    rw [hx]
    calc (2 : ℚ) ^ (52 : ℤ) = 2 ^ e * 2 ^ (52 - e) := by
          rw [two_zpow_add]
          congr 1
          omega
      _ ≤ q * 2 ^ (52 - e) := mul_le_mul_of_nonneg_right hb1 hp52.le
  have hxhi : x < (2 : ℚ) ^ (53 : ℤ) := by
    rw [hx]
    calc q * 2 ^ (52 - e) < (2 : ℚ) ^ (e + 1) * 2 ^ (52 - e) :=
          mul_lt_mul_of_pos_right hb2 hp52
      _ = (2 : ℚ) ^ (53 : ℤ) := by
          rw [two_zpow_add]
          congr 1
          omega
  set m : ℤ := rne x with hm
  have hhalf : |x - (m : ℚ)| ≤ 1 / 2 := abs_sub_rne_le_half x
  have hfl : fl64q q = (m : ℚ) * 2 ^ (e - 52) := fl64q_eval q e m hq hb1 hb2 rfl
  have hcast52 : ((2 ^ 52 : ℤ) : ℚ) = (2 : ℚ) ^ (52 : ℤ) := by
    push_cast
    norm_num
  have hcast53 : ((2 ^ 53 : ℤ) : ℚ) = (2 : ℚ) ^ (53 : ℤ) := by
    push_cast
    norm_num
  have hmlo : (2 : ℤ) ^ 52 ≤ m := by
    by_contra hcon
    push_neg at hcon
    have : (m : ℚ) ≤ ((2 ^ 52 : ℤ) : ℚ) - 1 := by
      exact_mod_cast Int.le_sub_one_of_lt hcon
    rw [hcast52] at this
    have habs := abs_le.mp hhalf
    linarith
  have hmhi : m ≤ (2 : ℤ) ^ 53 := by
    by_contra hcon
    push_neg at hcon
    have : ((2 ^ 53 : ℤ) : ℚ) + 1 ≤ (m : ℚ) := by
      exact_mod_cast Int.add_one_le_of_lt hcon
    rw [hcast53] at this
    have habs := abs_le.mp hhalf
    linarith
  refine ⟨m, hfl, hmlo, hmhi, ?_, ?_⟩
  · rw [hfl, hqx, ← sub_mul, abs_mul, abs_of_pos hp]
    calc |x - (m : ℚ)| * 2 ^ (e - 52) ≤ (1 / 2) * 2 ^ (e - 52) :=
          mul_le_mul_of_nonneg_right hhalf hp.le
      _ = 2 ^ (e - 53) := by
          rw [show (1 / 2 : ℚ) = (2 : ℚ) ^ (-1 : ℤ) by norm_num, two_zpow_add]
          congr 1
          omega
  · intro z
    rw [hfl, hqx, ← sub_mul, ← sub_mul, abs_mul, abs_mul, abs_of_pos hp]
    exact mul_le_mul_of_nonneg_right (rne_nearest x z) hp.le

/-- `fl64q q` is a value with a 53-bit significand. -/
theorem fl64q_repr (q : ℚ) (hq : 0 < q) :
    ∃ (n : ℕ) (k : ℤ), n < 2 ^ 53 ∧ fl64q q = (n : ℚ) * (2 : ℚ) ^ k := by
  obtain ⟨m, hfl, hmlo, hmhi, -, -⟩ := fl64q_spec q hq
  rcases eq_or_lt_of_le hmhi with heq | hlt
  · refine ⟨2 ^ 52, Int.log 2 q - 51, by norm_num, ?_⟩
    rw [hfl, heq]
    rw [show (((2 : ℤ) ^ 53 : ℤ) : ℚ) = (2 : ℚ) ^ (53 : ℤ) by norm_num,
      show (((2 : ℕ) ^ 52 : ℕ) : ℚ) = (2 : ℚ) ^ (52 : ℤ) by norm_num,
      two_zpow_add, two_zpow_add]
    congr 1
    omega
  · refine ⟨m.toNat, Int.log 2 q - 52, ?_, ?_⟩
    · have hnn : 0 ≤ m := le_trans (by positivity) hmlo
      omega
    · rw [hfl]
      congr 1
      have hnn : 0 ≤ m := le_trans (by positivity) hmlo
      exact_mod_cast (Int.toNat_of_nonneg hnn).symm

/-- `fl64q q` is a nearest 53-bit-significand value to `q`: correct rounding. -/
theorem fl64q_nearest (q : ℚ) (hq : 0 < q) (n : ℕ) (k : ℤ) (hn : n < 2 ^ 53) :
    |q - fl64q q| ≤ |q - (n : ℚ) * (2 : ℚ) ^ k| := by
  obtain ⟨m, hfl, hmlo, hmhi, herr, hgrid⟩ := fl64q_spec q hq
  set e := Int.log 2 q with he
  have hb1 : (2 : ℚ) ^ e ≤ q := by
    have := Int.zpow_log_le_self (b := 2) (by norm_num) hq
    push_cast at this
    exact this
  have hpk : (0 : ℚ) < 2 ^ k := zpow_pos (by norm_num) _
  have hpδ : (0 : ℚ) < 2 ^ (e - 52) := zpow_pos (by norm_num) _
  by_cases hk : e - 52 ≤ k
  · -- the candidate sits on the rounding grid
    set d : ℕ := (k - (e - 52)).toNat with hd
    have hkd : k = e - 52 + (d : ℤ) := by
      have := Int.toNat_of_nonneg (sub_nonneg.mpr hk)
      omega
    have hy : (n : ℚ) * (2 : ℚ) ^ k = (((n : ℤ) * 2 ^ d : ℤ) : ℚ) * 2 ^ (e - 52) := by
      push_cast
      rw [hkd, ← two_zpow_add, show ((2 : ℚ) ^ (d : ℕ) : ℚ) = (2 : ℚ) ^ (d : ℤ) by
        rw [zpow_natCast]]
      ring
    rw [hy]
    exact hgrid _
  · -- the candidate lies strictly below the binade of q
    push_neg at hk
    have hk53 : k ≤ e - 53 := by omega
    have hn' : (n : ℚ) ≤ 2 ^ 53 - 1 := by
      have : (n : ℕ) ≤ 2 ^ 53 - 1 := by omega
      calc (n : ℚ) ≤ ((2 ^ 53 - 1 : ℕ) : ℚ) := by exact_mod_cast this
        _ = 2 ^ 53 - 1 := by push_cast; norm_num
    have hyle : (n : ℚ) * (2 : ℚ) ^ k ≤ (2 : ℚ) ^ e - 2 ^ k := by
      have h2 : (2 : ℚ) ^ (k + 53) ≤ (2 : ℚ) ^ e :=
        zpow_le_zpow_right₀ (by norm_num) (by omega)
      calc (n : ℚ) * (2 : ℚ) ^ k ≤ (2 ^ 53 - 1) * 2 ^ k :=
            mul_le_mul_of_nonneg_right hn' hpk.le
        _ = (2 : ℚ) ^ (53 : ℤ) * 2 ^ k - 2 ^ k := by
            rw [show ((2 : ℚ) ^ (53 : ℕ) : ℚ) = (2 : ℚ) ^ (53 : ℤ) by norm_num]
            ring
        _ = (2 : ℚ) ^ (k + 53) - 2 ^ k := by
            rw [two_zpow_add]
            ring_nf
        _ ≤ (2 : ℚ) ^ e - 2 ^ k := by linarith
    have hcast52 : ((2 ^ 52 : ℤ) : ℚ) = (2 : ℚ) ^ (52 : ℤ) := by
      push_cast
      norm_num
    have hflge : (2 : ℚ) ^ e ≤ fl64q q := by
      rw [hfl]
      calc (2 : ℚ) ^ e = (2 : ℚ) ^ (52 : ℤ) * 2 ^ (e - 52) := by
            rw [two_zpow_add]
            congr 1
            omega
        _ ≤ (m : ℚ) * 2 ^ (e - 52) := by
            refine mul_le_mul_of_nonneg_right ?_ hpδ.le
            rw [← hcast52]
            exact_mod_cast hmlo
    have hyq : (n : ℚ) * (2 : ℚ) ^ k ≤ q := by
      calc (n : ℚ) * (2 : ℚ) ^ k ≤ (2 : ℚ) ^ e - 2 ^ k := hyle
        _ ≤ q := by linarith
    rcases le_or_lt (fl64q q) q with hle | hgt
    · rw [abs_of_nonneg (sub_nonneg.mpr hle), abs_of_nonneg (sub_nonneg.mpr hyq)]
      have : (n : ℚ) * (2 : ℚ) ^ k ≤ fl64q q := by
        calc (n : ℚ) * (2 : ℚ) ^ k ≤ (2 : ℚ) ^ e - 2 ^ k := hyle
          _ ≤ (2 : ℚ) ^ e := by linarith
          _ ≤ fl64q q := hflge
      linarith
    · -- fl64q q > q: then m > 2^52, so fl64q q ≥ 2^e + ulp and q ≥ 2^e + ulp/2
      have hm' : (2 : ℤ) ^ 52 + 1 ≤ m := by
        rcases eq_or_lt_of_le hmlo with heq | hlt
        · exfalso
          have : fl64q q = (2 : ℚ) ^ e := by
            rw [hfl, ← heq, hcast52, two_zpow_add]
            congr 1
            omega
          rw [this] at hgt
          linarith
        · omega
      have hflge' : (2 : ℚ) ^ e + 2 ^ (e - 52) ≤ fl64q q := by
        rw [hfl]
        calc (2 : ℚ) ^ e + 2 ^ (e - 52) = ((2 : ℚ) ^ (52 : ℤ) + 1) * 2 ^ (e - 52) := by
              rw [add_mul, one_mul, two_zpow_add]
              congr 2
              omega
          _ ≤ (m : ℚ) * 2 ^ (e - 52) := by
              refine mul_le_mul_of_nonneg_right ?_ hpδ.le
              have h1 : ((2 ^ 52 + 1 : ℤ) : ℚ) ≤ (m : ℚ) := by exact_mod_cast hm'
              have h2 : ((2 ^ 52 + 1 : ℤ) : ℚ) = (2 : ℚ) ^ (52 : ℤ) + 1 := by norm_num
              rw [h2] at h1
              linarith
      have herr' : fl64q q - q ≤ 2 ^ (e - 53) := by
        have habs := abs_le.mp herr
        linarith [habs.1]
      have hsplit : (2 : ℚ) ^ (e - 52) = 2 ^ (e - 53) + 2 ^ (e - 53) := by
        rw [show (2 : ℚ) ^ (e - 52) = 2 ^ (1 + (e - 53)) by congr 1; omega,
          ← two_zpow_add]
        ring_nf
      rw [abs_of_nonpos (by linarith), abs_of_nonneg (sub_nonneg.mpr hyq)]
      have hq_lb : (2 : ℚ) ^ e + 2 ^ (e - 53) ≤ q := by linarith
      linarith [hpk]

/-- Stage 1 of the counterexample: the binary64 value of `23/40`.
`(23/40)*2^53 = 5179139571476070.4`, which rounds down. -/
theorem fl64q_23_40 : fl64q ((23 : ℚ) / 40) = 5179139571476070 * (2 : ℚ) ^ (-53 : ℤ) := by
  have h : fl64q ((23 : ℚ) / 40) = ((5179139571476070 : ℤ) : ℚ) * 2 ^ ((-1 : ℤ) - 52) := by
    refine fl64q_eval _ (-1) _ (by norm_num) ?_ ?_ ?_
    · rw [show ((-1 : ℤ)) = -(1 : ℤ) by rfl, zpow_neg, zpow_one]
      norm_num
    · norm_num
    · refine rne_eval_lo _ _ ?_ ?_ <;>
        rw [show (52 - (-1 : ℤ)) = (53 : ℤ) by rfl,
          show ((2 : ℚ) ^ (53 : ℤ)) = 9007199254740992 by norm_num] <;>
        norm_num
  rw [h]
  norm_num

/-- Stage 2 of the counterexample: the binary64 product with 100.
`fl(23/40)*100*2^(-5+52) = 8092405580431359.375`, which rounds down, giving the
double 57.49999999999999289. -/
theorem fl64q_stage2 :
    fl64q ((5179139571476070 * (2 : ℚ) ^ (-53 : ℤ)) * 100) =
      8092405580431359 * (2 : ℚ) ^ (-47 : ℤ) := by
  have hqv : (5179139571476070 * (2 : ℚ) ^ (-53 : ℤ)) * 100 =
      517913957147607000 * (2 : ℚ) ^ (-53 : ℤ) := by ring
  rw [hqv]
  have h2n53 : ((2 : ℚ) ^ (-53 : ℤ)) = 1 / 9007199254740992 := by
    rw [show ((-53 : ℤ)) = -(53 : ℤ) by rfl, zpow_neg,
      show ((2 : ℚ) ^ (53 : ℤ)) = 9007199254740992 by norm_num]
    norm_num
  have h : fl64q (517913957147607000 * (2 : ℚ) ^ (-53 : ℤ)) =
      ((8092405580431359 : ℤ) : ℚ) * 2 ^ ((5 : ℤ) - 52) := by
    refine fl64q_eval _ 5 _ (by rw [h2n53]; norm_num) ?_ ?_ ?_
    · rw [h2n53]
      norm_num
    · rw [h2n53]
      norm_num
    · refine rne_eval_lo _ _ ?_ ?_ <;>
        rw [show ((52 : ℤ) - 5) = (47 : ℤ) by rfl,
          show ((2 : ℚ) ^ (47 : ℤ)) = 140737488355328 by norm_num, h2n53] <;>
        norm_num
  rw [h]
  norm_num

/-- `Math.round((23/40)*100)` in binary64 is 57 (not the exact `round(57.5) = 58`). -/
theorem pct64_23_40 : pct64 23 40 = 57 := by
  unfold pct64
  rw [show ((23 : ℕ) : ℚ) / ((40 : ℕ) : ℚ) = (23 : ℚ) / 40 by norm_num,
    fl64q_23_40, fl64q_stage2]
  have h2n47 : ((2 : ℚ) ^ (-47 : ℤ)) = 1 / 140737488355328 := by
    rw [show ((-47 : ℤ)) = -(47 : ℤ) by rfl, zpow_neg,
      show ((2 : ℚ) ^ (47 : ℤ)) = 140737488355328 by norm_num]
    norm_num
  rw [h2n47]
  rw [Nat.floor_eq_iff (by norm_num)]
  norm_num

/-- `walkLevels` on the empty level list returns the accumulator. -/
theorem walkLevels_nil (allCriteria : List LevelPass) (hp : Nat) :
    walkLevels allCriteria [] hp = hp := rfl

/-- The walk steps through one level: it advances (carrying the level as the new
accumulator) exactly when the level is vacuously passed or meets the threshold, and
stops otherwise. -/
theorem walkLevels_cons (allCriteria : List LevelPass) (lvl : Nat) (rest : List Nat)
    (hp : Nat) :
    walkLevels allCriteria (lvl :: rest) hp =
      if levelVacuouslyOrMeets allCriteria lvl then walkLevels allCriteria rest lvl
      else hp := by
  by_cases hb : (levelBucket allCriteria lvl).length = 0
  · have hv : levelVacuouslyOrMeets allCriteria lvl :=
      Or.inl (List.length_eq_zero.mp hb)
    simp [walkLevels, hb, hv]
  · by_cases hr : passRateMeets (passedCountOf (levelBucket allCriteria lvl))
        (levelBucket allCriteria lvl).length
    · have hv : levelVacuouslyOrMeets allCriteria lvl := Or.inr hr
      simp [walkLevels, hb, hr, hv]
    · have hv : ¬ levelVacuouslyOrMeets allCriteria lvl := by
        rintro (he | hm)
        · exact hb (by simp [he])
        · exact hr hm
      simp [walkLevels, hb, hr, hv]

/-- The operational walk over levels 1-5 computes the declarative `specLevel`. -/
theorem walk_eq_specLevel (allCriteria : List LevelPass) :
    walkLevels allCriteria levels 1 = specLevel allCriteria := by
  have e1 : List.range' 1 1 = [1] := rfl
  have e2 : List.range' 1 2 = [1, 2] := rfl
  have e3 : List.range' 1 3 = [1, 2, 3] := rfl
  have e4 : List.range' 1 4 = [1, 2, 3, 4] := rfl
  have e5 : List.range' 1 5 = [1, 2, 3, 4, 5] := rfl
  have c1 : chainPassed allCriteria 1 ↔ levelVacuouslyOrMeets allCriteria 1 := by
    simp [chainPassed, e1]
  have c2 : chainPassed allCriteria 2 ↔
      (levelVacuouslyOrMeets allCriteria 1 ∧ levelVacuouslyOrMeets allCriteria 2) := by
    simp [chainPassed, e2]
  have c3 : chainPassed allCriteria 3 ↔
      (levelVacuouslyOrMeets allCriteria 1 ∧ levelVacuouslyOrMeets allCriteria 2 ∧
        levelVacuouslyOrMeets allCriteria 3) := by
    simp [chainPassed, e3]
  have c4 : chainPassed allCriteria 4 ↔
      (levelVacuouslyOrMeets allCriteria 1 ∧ levelVacuouslyOrMeets allCriteria 2 ∧
        levelVacuouslyOrMeets allCriteria 3 ∧ levelVacuouslyOrMeets allCriteria 4) := by
    simp [chainPassed, e4]
  have c5 : chainPassed allCriteria 5 ↔
      (levelVacuouslyOrMeets allCriteria 1 ∧ levelVacuouslyOrMeets allCriteria 2 ∧
        levelVacuouslyOrMeets allCriteria 3 ∧ levelVacuouslyOrMeets allCriteria 4 ∧
        levelVacuouslyOrMeets allCriteria 5) := by
    simp [chainPassed, e5]
  have hL : walkLevels allCriteria levels 1 =
      (if levelVacuouslyOrMeets allCriteria 1 then
        (if levelVacuouslyOrMeets allCriteria 2 then
          (if levelVacuouslyOrMeets allCriteria 3 then
            (if levelVacuouslyOrMeets allCriteria 4 then
              (if levelVacuouslyOrMeets allCriteria 5 then 5 else 4) else 3) else 2)
          else 1) else 1) := by
    rw [show levels = [1, 2, 3, 4, 5] from rfl, walkLevels_cons, walkLevels_cons,
      walkLevels_cons, walkLevels_cons, walkLevels_cons, walkLevels_nil]
  have hR : specLevel allCriteria =
      (List.filter (fun L => decide (chainPassed allCriteria L)) [1, 2, 3, 4, 5]).foldl max 1 := by
    rw [specLevel, e5]
  rw [hL, hR]
  simp only [List.filter_cons, List.filter_nil, decide_eq_true_eq, c1, c2, c3, c4, c5]
  by_cases h1 : levelVacuouslyOrMeets allCriteria 1 <;>
    by_cases h2 : levelVacuouslyOrMeets allCriteria 2 <;>
      by_cases h3 : levelVacuouslyOrMeets allCriteria 3 <;>
        by_cases h4 : levelVacuouslyOrMeets allCriteria 4 <;>
          by_cases h5 : levelVacuouslyOrMeets allCriteria 5 <;>
            simp [h1, h2, h3, h4, h5]

/-- The `level` field of `calculateLevel` is the walk's result. -/
theorem calculateLevel_level (pillars : List Pillar) (results : ResultsMap) :
    (calculateLevel pillars results).level =
      walkLevels (collectAllCriteria pillars results) levels 1 := by
  simp only [calculateLevel]
  split <;> rfl

/-- Inserting skipped results leaves the non-skipped subsequence unchanged. -/
theorem addSkipped_filter {rs rs' : List CriterionResult} (h : AddSkipped rs rs') :
    rs'.filter (fun r => ! isSkipped r) = rs.filter (fun r => ! isSkipped r) := by
  induction h with
  | nil => rfl
  | keep r h ih =>
    by_cases hs : isSkipped r <;> simp [List.filter_cons, hs, ih]
  | extra r hs h ih =>
    simp [List.filter_cons, hs, ih]

/-- The flattening loop of `calculateLevel` keeps exactly the criteria whose matched
result is not skipped, each contributing its level and matched pass bit. -/
theorem collectAllCriteria_eq (pillars : List Pillar) (results : ResultsMap) :
    collectAllCriteria pillars results =
      pillars.flatMap (fun pillar =>
        (pillar.criteria.filter (fun c => ! matchedSkipped results pillar c)).map
          (levelPassOf results pillar)) := by
  unfold collectAllCriteria
  refine List.flatMap_congr (fun pillar _ => ?_)
  induction pillar.criteria with
  | nil => rfl
  | cons c cs ih =>
    have hm' : ((mapGet results pillar.id).getD []).find? (fun r => r.criterionId == c.id) =
        matchedResult results pillar c := rfl
    simp only [List.filterMap_cons, List.filter_cons, hm']
    rcases hm : matchedResult results pillar c with _ | r
    · simp [hm, matchedSkipped, levelPassOf, ih]
    · by_cases hs : isSkipped r
      · simp [hm, matchedSkipped, hs, ih]
      · simp [hm, matchedSkipped, levelPassOf, hs, ih]

/-- The failed-item collection projects to the spec's failed-criterion id pairs. -/
theorem collectFailedItems_proj (pillars : List Pillar) (results : ResultsMap) :
    (collectFailedItems pillars results).map (fun item => (item.pillarId, item.criterionId)) =
      failedCriterionIds pillars results := by
  unfold collectFailedItems failedCriterionIds
  rw [List.map_flatMap]
  refine List.flatMap_congr (fun pillar _ => ?_)
  induction pillar.criteria with
  | nil => rfl
  | cons c cs ih =>
    have hm' : ((mapGet results pillar.id).getD []).find? (fun r => r.criterionId == c.id) =
        matchedResult results pillar c := rfl
    simp only [List.filterMap_cons, List.filter_cons, hm']
    rcases hm : matchedResult results pillar c with _ | r
    · simp only [hm, List.map_cons, List.map_nil]
      exact ih
    · by_cases hp : (! r.pass && ! isSkipped r) = true
      · simp only [hm, hp, if_true, List.map_cons, ih]
      · simp only [hm, hp, if_false]
        rw [if_neg (by simpa using hp)]
        exact ih

/-- `IMPACT_ORDER` is at most 2. -/
theorem IMPACT_ORDER_le_two (im : Impact) : IMPACT_ORDER im ≤ 2 := by
  cases im <;> simp [IMPACT_ORDER]

/-- `EFFORT_ORDER` is at most 2. -/
theorem EFFORT_ORDER_le_two (ef : Effort) : EFFORT_ORDER ef ≤ 2 := by
  cases ef <;> simp [EFFORT_ORDER]

/-- The comparator orders exactly by the lexicographic rank `recKey`: a compares
at-or-before b iff a's rank is at most b's. -/
theorem recCompare_nonpos_iff (failedItems : List FailedItem) (nextLevel : Nat)
    (a b : Recommendation) :
    recCompare failedItems nextLevel a b ≤ 0 ↔
      recKey failedItems nextLevel a ≤ recKey failedItems nextLevel b := by
  have hia := IMPACT_ORDER_le_two a.impact
  have hib := IMPACT_ORDER_le_two b.impact
  have hea := EFFORT_ORDER_le_two a.effort
  have heb := EFFORT_ORDER_le_two b.effort
  unfold recCompare recKey
  by_cases hA : levelOfRec failedItems a = nextLevel <;>
    by_cases hB : levelOfRec failedItems b = nextLevel <;>
      by_cases hI : (IMPACT_ORDER a.impact : Int) - (IMPACT_ORDER b.impact : Int) ≠ 0 <;>
        simp only [hA, hB, hI, if_true, if_false, if_pos, if_neg, ite_true, ite_false,
          ne_eq, not_true, not_false_iff, ite_not, if_neg] <;>
        omega

/-- The comparator's strict version: a sorts strictly before b iff a's rank is
smaller. -/
theorem recCompare_neg_iff (failedItems : List FailedItem) (nextLevel : Nat)
    (a b : Recommendation) :
    recCompare failedItems nextLevel a b < 0 ↔
      recKey failedItems nextLevel a < recKey failedItems nextLevel b := by
  have hia := IMPACT_ORDER_le_two a.impact
  have hib := IMPACT_ORDER_le_two b.impact
  have hea := EFFORT_ORDER_le_two a.effort
  have heb := EFFORT_ORDER_le_two b.effort
  unfold recCompare recKey
  by_cases hA : levelOfRec failedItems a = nextLevel <;>
    by_cases hB : levelOfRec failedItems b = nextLevel <;>
      by_cases hI : (IMPACT_ORDER a.impact : Int) - (IMPACT_ORDER b.impact : Int) ≠ 0 <;>
        simp only [hA, hB, hI, if_true, if_false, if_pos, if_neg, ite_true, ite_false,
          ne_eq, not_true, not_false_iff, ite_not, if_neg] <;>
        omega

/-! ## The claims -/

/-- C1: level computation is sequentially gated with an inclusive 0.8 threshold: for
every pillar list and result map, the achieved level equals the highest level in the
unbroken chain from level 1 whose (skip-filtered) buckets are all empty (vacuously
passed) or at pass rate ≥ 0.8; and concretely a bucket of 10 criteria with exactly 8
passing (80%) passes its level (the threshold is inclusive): with level 1 empty,
8/10 at level 2 and a failing level-3 criterion, the achieved level is 2. -/
theorem claim1_sequential_gating :
    (∀ (pillars : List Pillar) (results : ResultsMap),
      (calculateLevel pillars results).level = specLevel (collectAllCriteria pillars results))
    ∧ (calculateLevel scenC_pillars scenC_results).level = 2 := by
  constructor
  · intro pillars results
    rw [calculateLevel_level, walk_eq_specLevel]
  · decide

/-- C2 counterexample: for the spec's scenario B input (one pillar, one level-3
criterion whose only result is skipped) every bucket is empty after skip-exclusion,
and `calculateLevel` returns level 5 with `nextLevel = none` — not level 1 with
`nextLevel = 2` as the claim states. -/
theorem claim2_counterexample :
    (calculateLevel scenB_pillars scenB_results).level = 5 ∧
    ¬ ((calculateLevel scenB_pillars scenB_results).level = 1) ∧
    (calculateLevel scenB_pillars scenB_results).nextLevelProgress.nextLevel = none := by
  decide

/-- C2 amended: when every level bucket is empty after skip-exclusion, every level is
vacuously passed and credited, so `calculateLevel` returns level = 5 with
`nextLevel = none` and `current = needed = remaining = 0`; the aggregator is a total
function, so it cannot throw. -/
theorem claim2_amended_empty_buckets (pillars : List Pillar) (results : ResultsMap)
    (h : ∀ lvl ∈ levels, levelBucket (collectAllCriteria pillars results) lvl = []) :
    calculateLevel pillars results =
      { level := 5,
        nextLevelProgress := { current := 0, needed := 0, remaining := 0, nextLevel := none } } := by
  have h1 := h 1 (by simp [levels])
  have h2 := h 2 (by simp [levels])
  have h3 := h 3 (by simp [levels])
  have h4 := h 4 (by simp [levels])
  have h5 := h 5 (by simp [levels])
  have v1 : levelVacuouslyOrMeets (collectAllCriteria pillars results) 1 := Or.inl h1
  have v2 : levelVacuouslyOrMeets (collectAllCriteria pillars results) 2 := Or.inl h2
  have v3 : levelVacuouslyOrMeets (collectAllCriteria pillars results) 3 := Or.inl h3
  have v4 : levelVacuouslyOrMeets (collectAllCriteria pillars results) 4 := Or.inl h4
  have v5 : levelVacuouslyOrMeets (collectAllCriteria pillars results) 5 := Or.inl h5
  have w : walkLevels (collectAllCriteria pillars results) levels 1 = 5 := by
    rw [show levels = [1, 2, 3, 4, 5] from rfl, walkLevels_cons, if_pos v1,
      walkLevels_cons, if_pos v2, walkLevels_cons, if_pos v3,
      walkLevels_cons, if_pos v4, walkLevels_cons, if_pos v5,
      walkLevels_nil]
  simp only [calculateLevel, w]
  norm_num

/-- C2 witness: the amended statement holds at the concrete scenario B input. -/
theorem claim2_amended_witness :
    (∀ lvl ∈ levels, levelBucket (collectAllCriteria scenB_pillars scenB_results) lvl = []) ∧
    calculateLevel scenB_pillars scenB_results =
      { level := 5,
        nextLevelProgress := { current := 0, needed := 0, remaining := 0, nextLevel := none } } :=
  ⟨by decide, claim2_amended_empty_buckets scenB_pillars scenB_results (by decide)⟩

/-- C3: `nextLevel` is `level + 1` exactly when `level < 5` and `none` otherwise;
when `nextLevel` is set, `current` is the passed count of the next level's
(skip-filtered) bucket, `needed = ⌈bucketSize * 0.8⌉` and
`remaining = max(0, needed - current)`; when `nextLevel` is `none` all three are 0.
For the spec's scenario A (5 pillars, each one passing level-1 and one failing
level-2 criterion) the result is level 1, nextLevel 2, remaining 4. -/
theorem claim3_next_level_progress :
    (∀ (pillars : List Pillar) (results : ResultsMap),
      ((calculateLevel pillars results).nextLevelProgress.nextLevel =
        (if (calculateLevel pillars results).level < 5 then
          some ((calculateLevel pillars results).level + 1) else none))
      ∧ (∀ nl : Nat, (calculateLevel pillars results).nextLevelProgress.nextLevel = some nl →
          (calculateLevel pillars results).nextLevelProgress.current =
              passedCountOf (levelBucket (collectAllCriteria pillars results) nl)
            ∧ (calculateLevel pillars results).nextLevelProgress.needed =
              ⌈((levelBucket (collectAllCriteria pillars results) nl).length : ℚ) * LEVEL_THRESHOLD⌉₊
            ∧ (((calculateLevel pillars results).nextLevelProgress.remaining : ℤ) =
              max 0 (((calculateLevel pillars results).nextLevelProgress.needed : ℤ) -
                ((calculateLevel pillars results).nextLevelProgress.current : ℤ))))
      ∧ ((calculateLevel pillars results).nextLevelProgress.nextLevel = none →
          (calculateLevel pillars results).nextLevelProgress.current = 0
            ∧ (calculateLevel pillars results).nextLevelProgress.needed = 0
            ∧ (calculateLevel pillars results).nextLevelProgress.remaining = 0))
    ∧ calculateLevel scenA_pillars scenA_results =
        { level := 1,
          nextLevelProgress := { current := 0, needed := 4, remaining := 4, nextLevel := some 2 } } := by
  constructor
  · intro pillars results
    simp only [calculateLevel]
    split
    next h =>
      refine ⟨by simp [h], ?_, ?_⟩
      · intro nl heq
        obtain rfl : walkLevels (collectAllCriteria pillars results) levels 1 + 1 = nl := by
          simpa using heq
        refine ⟨rfl, ceilThreshold_eq_ceil _, ?_⟩
        dsimp only
        omega
      · intro heq
        simp at heq
    next h =>
      refine ⟨by simp [h], ?_, ?_⟩
      · intro nl heq
        simp at heq
      · intro _
        exact ⟨rfl, rfl, rfl⟩
  · decide

/-- C4 counterexample: at a pillar with 40 non-skipped results of which 23 pass, the
program computes `Math.round((23/40)*100)` in binary64, where `(23/40)*100` is
57.49999999999999289, and returns percentage 57 — not the exact round-half-up of
`23/40*100 = 57.5`, which is 58. -/
theorem claim4_counterexample :
    calculatePillarScores cxPillars cxResults =
      [{ pillarId := "p1", passed := 23, total := 40, percentage := 57 }]
    ∧ ¬ ((57 : ℕ) = ⌊((23 : ℚ) / 40) * 100 + 1 / 2⌋₊) := by
  constructor
  · have hres : (mapGet cxResults "p1").getD [] =
        List.replicate 23 cxPassResult ++ List.replicate 17 cxFailResult := by decide
    have hcount : ((List.replicate 23 cxPassResult ++ List.replicate 17 cxFailResult).filter
        (fun r => ! isSkipped r)) =
        List.replicate 23 cxPassResult ++ List.replicate 17 cxFailResult := by decide
    have hpassed : (((List.replicate 23 cxPassResult ++ List.replicate 17 cxFailResult)).filter
        (fun r => r.pass)).length = 23 := by decide
    have htotal : (List.replicate 23 cxPassResult ++ List.replicate 17 cxFailResult).length = 40 := by
      decide
    show calculatePillarScores cxPillars cxResults = _
    rw [show cxPillars = [{ id := "p1", name := "P", description := "", icon := "", criteria := [] }] from rfl]
    unfold calculatePillarScores
    simp only [List.map_cons, List.map_nil]
    rw [hres, hcount, hpassed, htotal]
    norm_num [pct64_23_40]
  · have : ((23 : ℚ) / 40) * 100 + 1 / 2 = 58 := by norm_num
    rw [this]
    norm_num

/-- C4 amended: per-pillar scoring first drops results with `skipped` truthy, then
`passed` and `total` count the remainder, and `percentage` is
`Math.round((passed/total)*100)` evaluated in binary64 when `total > 0` (0 when
`total = 0`): the exact round-half-up of the double-rounded product, where each
rounding (`fl64q`) is correct rounding to the nearest 53-bit-significand value, ties
to even — which can land one below the exact round-half-up (23 of 40 gives 57, not
58).  A pillar with no entry in the results map gets `passed = total =
percentage = 0`. -/
theorem claim4_amended_pillar_scores :
    (∀ (pillars : List Pillar) (results : ResultsMap),
      calculatePillarScores pillars results = pillars.map (pillarScoreSpec results))
    ∧ (∀ (pillars : List Pillar) (results : ResultsMap) (pillar : Pillar),
        pillar ∈ pillars → mapGet results pillar.id = none →
        ({ pillarId := pillar.id, passed := 0, total := 0, percentage := 0 } : PillarScore) ∈
          calculatePillarScores pillars results)
    ∧ (∀ q : ℚ, 0 < q →
        (∃ (n : ℕ) (k : ℤ), n < 2 ^ 53 ∧ fl64q q = (n : ℚ) * (2 : ℚ) ^ k)
        ∧ ∀ (n : ℕ) (k : ℤ), n < 2 ^ 53 →
            |q - fl64q q| ≤ |q - (n : ℚ) * (2 : ℚ) ^ k|) := by
  refine ⟨?_, ?_, ?_⟩
  · intro pillars results
    simp only [calculatePillarScores, pillarScoreSpec]
    refine List.map_congr_left (fun pillar _ => ?_)
    dsimp only
    simp only [pillarScoreSpec]
    set counted := ((mapGet results pillar.id).getD []).filter (fun r => ! isSkipped r) with hc
    have hpq : (counted.filter (fun r => r.pass)).length = counted.countP (fun r => r.pass) :=
      (List.countP_eq_length_filter _ _).symm
    simp only [PillarScore.mk.injEq, true_and, and_true]
    refine ⟨hpq, ?_⟩
    rw [hpq]
  · intro pillars results pillar hmem hnone
    simp only [calculatePillarScores]
    refine List.mem_map.mpr ⟨pillar, hmem, ?_⟩
    simp [hnone]
  · intro q hq
    exact ⟨fl64q_repr q hq, fun n k hn => fl64q_nearest q hq n k hn⟩

/-- C5: skipped results are inert: inserting any number of skipped results anywhere
into the pillars' result lists leaves every pillar's `passed`, `total` and
`percentage` unchanged, and level computation drops every criterion whose matched
result is skipped from all level buckets (the flattened set holds exactly the
criteria with non-skipped matches). -/
theorem claim5_skipped_inert :
    (∀ (pillars : List Pillar) (m₁ m₂ : ResultsMap),
      (∀ pid : String, AddSkipped ((mapGet m₁ pid).getD []) ((mapGet m₂ pid).getD [])) →
      calculatePillarScores pillars m₂ = calculatePillarScores pillars m₁)
    ∧ (∀ (pillars : List Pillar) (results : ResultsMap),
      collectAllCriteria pillars results =
        pillars.flatMap (fun pillar =>
          (pillar.criteria.filter (fun c => ! matchedSkipped results pillar c)).map
            (levelPassOf results pillar))) := by
  constructor
  · intro pillars m₁ m₂ h
    simp only [calculatePillarScores]
    refine List.map_congr_left (fun pillar _ => ?_)
    have hf := addSkipped_filter (h pillar.id)
    simp only [hf]
  · exact collectAllCriteria_eq

/-- C6: a check that rejects is caught and becomes a failing, non-skipped result
whose message is "Check failed: " followed by the error's message; a check that
resolves is used verbatim; and the run still produces an entry for every pillar,
each computed from its own criteria only. -/
theorem claim6_check_failure_isolation :
    (∀ (e : AnalysisEngine) (c : EngineCriterion) (errorMessage : String),
      (c.requiresLLM && ! e.aiEnabled) = false →
      c.check e.repoPath e.projectInfo e.llmClient = .error errorMessage →
      runCriterion e c =
        { criterionId := c.id, pass := false,
          message := "Check failed: " ++ errorMessage, details := none, skipped := none })
    ∧ (∀ (e : AnalysisEngine) (c : EngineCriterion) (result : CriterionResult),
      (c.requiresLLM && ! e.aiEnabled) = false →
      c.check e.repoPath e.projectInfo e.llmClient = .ok result →
      runCriterion e c = result)
    ∧ (∀ e : AnalysisEngine, (AnalysisEngine.run e).length = e.pillars.length)
    ∧ (∀ (e : AnalysisEngine) (p : EnginePillar), p ∈ e.pillars →
      (p.id, p.criteria.map (runCriterion e)) ∈ AnalysisEngine.run e) := by
  refine ⟨?_, ?_, ?_, ?_⟩
  · intro e c errorMessage hflag hcheck
    unfold runCriterion
    simp [hflag, hcheck]
  · intro e c result hflag hcheck
    unfold runCriterion
    simp [hflag, hcheck]
  · intro e
    unfold AnalysisEngine.run
    simp
  · intro e p hp
    unfold AnalysisEngine.run
    exact List.mem_map.mpr ⟨p, hp, rfl⟩

/-- C7 counterexample: the engine's skip branch fires on `requiresLLM ∧ ¬aiEnabled`
and its message is "Requires --ai flag", not "Requires external evaluator"; and with
`aiEnabled = true` but no evaluator supplied the check IS invoked (its result is used
verbatim, not the claimed skip result). -/
theorem claim7_counterexample :
    (runCriterion engineNoAi llmCrit).message = "Requires --ai flag" ∧
    ¬ ((runCriterion engineNoAi llmCrit).message = "Requires external evaluator") ∧
    runCriterion engineAiNoClient llmCrit =
      { criterionId := "readme-quality", pass := true, message := "ok" } ∧
    ¬ (runCriterion engineAiNoClient llmCrit =
      { criterionId := "readme-quality", pass := false,
        message := "Requires external evaluator", skipped := some true }) := by
  decide

/-- C7 amended: for every criterion with `requiresLLM = true`, when the engine's
`aiEnabled` flag is false the check is never invoked (the conclusion does not depend
on `c.check`) and the produced result is exactly
`{criterionId, pass: false, message: "Requires --ai flag", skipped: true}`. -/
theorem claim7_amended_requires_ai_flag (e : AnalysisEngine) (c : EngineCriterion)
    (hreq : c.requiresLLM = true) (hai : e.aiEnabled = false) :
    runCriterion e c =
      { criterionId := c.id, pass := false, message := "Requires --ai flag",
        details := none, skipped := some true } := by
  unfold runCriterion
  simp [hreq, hai]

/-- C7 witness: the amended statement at a concrete LLM-required criterion and an
engine with AI disabled. -/
theorem claim7_amended_witness :
    llmCrit.requiresLLM = true ∧ engineNoAi.aiEnabled = false ∧
    runCriterion engineNoAi llmCrit =
      { criterionId := llmCrit.id, pass := false, message := "Requires --ai flag",
        details := none, skipped := some true } :=
  ⟨rfl, rfl, claim7_amended_requires_ai_flag engineNoAi llmCrit rfl rfl⟩

/-- C8: the returned recommendation list is the sorted list truncated to at most 10
entries, and before truncation it holds one recommendation exactly for each criterion
whose matched result exists, failed and is not skipped (a criterion with no matching
result yields none): its `(pillarId, criterionId)` projection is a permutation of the
failed criterion id pairs. -/
theorem claim8_recommendation_cap_and_domain :
    (∀ (pillars : List Pillar) (results : ResultsMap) (ps : List PillarScore)
        (lr : LevelResult),
      (generateRecommendations pillars results ps lr).length ≤ 10)
    ∧ (∀ (pillars : List Pillar) (results : ResultsMap) (ps : List PillarScore)
        (lr : LevelResult),
      generateRecommendations pillars results ps lr =
        (sortedRecommendations pillars results lr.level).take 10)
    ∧ (∀ (pillars : List Pillar) (results : ResultsMap) (currentLevel : Nat),
      ((sortedRecommendations pillars results currentLevel).map
          (fun rec => (rec.pillarId, rec.criterionId))).Perm
        (failedCriterionIds pillars results)) := by
  refine ⟨?_, ?_, ?_⟩
  · intro pillars results ps lr
    unfold generateRecommendations
    exact List.length_take_le 10 _
  · intro pillars results ps lr
    rfl
  · intro pillars results currentLevel
    unfold sortedRecommendations
    refine ((List.mergeSort_perm _ _).map _).trans ?_
    rw [List.map_map,
      show ((fun rec => (rec.pillarId, rec.criterionId)) ∘ buildRecommendation currentLevel) =
        (fun item => (item.pillarId, item.criterionId)) from rfl,
      collectFailedItems_proj]

/-- C9: a recommendation's impact is determined only by the failing criterion's level
against the achieved level (`level+1` → high, `level+2` → medium, else low), its
effort comes from the fixed table with default medium, and the returned list is
ordered by the stable 3-key comparator: next-level criteria first, then impact in the
order high < medium < low, then effort in the order low < medium < high (the
comparator orders exactly by the lexicographic rank `recKey`, and the sort is stable:
an already-ordered sublist of the input stays a sublist of the output). -/
theorem claim9_impact_effort_ordering :
    (∀ criterionLevel currentLevel : Nat,
      (determineImpact criterionLevel currentLevel = .high ↔ criterionLevel = currentLevel + 1)
      ∧ (determineImpact criterionLevel currentLevel = .medium ↔ criterionLevel = currentLevel + 2)
      ∧ (determineImpact criterionLevel currentLevel = .low ↔
          (criterionLevel ≠ currentLevel + 1 ∧ criterionLevel ≠ currentLevel + 2)))
    ∧ (∀ (currentLevel : Nat) (item : FailedItem),
      (buildRecommendation currentLevel item).impact =
          determineImpact item.criterionLevel currentLevel
      ∧ (buildRecommendation currentLevel item).effort =
          ((EFFORT_MAP.find? (fun p => p.1 == item.criterionId)).map (fun p => p.2)).getD .medium)
    ∧ (∀ (failedItems : List FailedItem) (nextLevel : Nat) (a b : Recommendation),
      recCompare failedItems nextLevel a b ≤ 0 ↔
        recKey failedItems nextLevel a ≤ recKey failedItems nextLevel b)
    ∧ (∀ (pillars : List Pillar) (results : ResultsMap) (ps : List PillarScore)
        (lr : LevelResult),
      (generateRecommendations pillars results ps lr).Pairwise
        (fun a b => recCompare (collectFailedItems pillars results) (lr.level + 1) a b ≤ 0))
    ∧ (∀ (pillars : List Pillar) (results : ResultsMap) (currentLevel : Nat)
        (c : List Recommendation),
      c.Pairwise (fun a b =>
        recCompare (collectFailedItems pillars results) (currentLevel + 1) a b ≤ 0) →
      c.Sublist ((collectFailedItems pillars results).map (buildRecommendation currentLevel)) →
      c.Sublist (sortedRecommendations pillars results currentLevel)) := by
  have htrans : ∀ (fi : List FailedItem) (nl : Nat) (a b c : Recommendation),
      decide (recCompare fi nl a b ≤ 0) = true → decide (recCompare fi nl b c ≤ 0) = true →
      decide (recCompare fi nl a c ≤ 0) = true := by
    intro fi nl a b c hab hbc
    rw [decide_eq_true_eq] at hab hbc ⊢
    rw [recCompare_nonpos_iff] at hab hbc ⊢
    exact le_trans hab hbc
  have htotal : ∀ (fi : List FailedItem) (nl : Nat) (a b : Recommendation),
      (decide (recCompare fi nl a b ≤ 0) || decide (recCompare fi nl b a ≤ 0)) = true := by
    intro fi nl a b
    rcases Nat.le_total (recKey fi nl a) (recKey fi nl b) with h | h
    · have hd : decide (recCompare fi nl a b ≤ 0) = true := by
        rw [decide_eq_true_eq, recCompare_nonpos_iff]
        exact h
      simp [hd]
    · have hd : decide (recCompare fi nl b a ≤ 0) = true := by
        rw [decide_eq_true_eq, recCompare_nonpos_iff]
        exact h
      simp [hd]
  refine ⟨?_, ?_, ?_, ?_, ?_⟩
  · intro criterionLevel currentLevel
    refine ⟨?_, ?_, ?_⟩ <;>
      · unfold determineImpact
        by_cases h1 : criterionLevel = currentLevel + 1 <;>
          by_cases h2 : criterionLevel = currentLevel + 2 <;>
            simp [h1, h2] <;> omega
  · intro currentLevel item
    exact ⟨rfl, rfl⟩
  · intro failedItems nextLevel a b
    exact recCompare_nonpos_iff failedItems nextLevel a b
  · intro pillars results ps lr
    unfold generateRecommendations
    refine List.Pairwise.sublist (List.take_sublist _ _) ?_
    unfold sortedRecommendations
    have hsorted := List.sorted_mergeSort
      (htrans (collectFailedItems pillars results) (lr.level + 1))
      (htotal (collectFailedItems pillars results) (lr.level + 1))
      ((collectFailedItems pillars results).map (buildRecommendation lr.level))
    exact hsorted.imp (fun h => of_decide_eq_true h)
  · intro pillars results currentLevel c hpair hsub
    unfold sortedRecommendations
    refine List.mergeSort_stable
      (htrans (collectFailedItems pillars results) (currentLevel + 1))
      (htotal (collectFailedItems pillars results) (currentLevel + 1)) ?_ hsub
    exact hpair.imp (fun h => decide_eq_true h)

/-- C10 (implicit): whether an LLM-required criterion is skipped depends only on the
engine's `aiEnabled` flag, never on whether an evaluator instance is present: the
constructor stores `aiEnabled` and `llmClient` independently; with `aiEnabled = true`
and no `llmClient` the check IS invoked with no evaluator (so it may fail into the
"Check failed" branch); and with `aiEnabled = false` the criterion is skipped even
when an `llmClient` is supplied. -/
theorem claim10_ai_flag_only :
    (∀ (pillars : List EnginePillar) (repoPath : String) (projectInfo : ProjectInfo)
        (o : AnalysisEngineOptions),
      (mkAnalysisEngine pillars repoPath projectInfo (some o)).aiEnabled = o.aiEnabled.getD false
      ∧ (mkAnalysisEngine pillars repoPath projectInfo (some o)).llmClient = o.llmClient)
    ∧ (∀ (pillars : List EnginePillar) (repoPath : String) (projectInfo : ProjectInfo),
      (mkAnalysisEngine pillars repoPath projectInfo none).aiEnabled = false
      ∧ (mkAnalysisEngine pillars repoPath projectInfo none).llmClient = none)
    ∧ (∀ (e : AnalysisEngine) (c : EngineCriterion) (result : CriterionResult),
      c.requiresLLM = true → e.aiEnabled = true → e.llmClient = none →
      c.check e.repoPath e.projectInfo none = .ok result →
      runCriterion e c = result)
    ∧ (∀ (e : AnalysisEngine) (c : EngineCriterion) (errorMessage : String),
      c.requiresLLM = true → e.aiEnabled = true → e.llmClient = none →
      c.check e.repoPath e.projectInfo none = .error errorMessage →
      runCriterion e c =
        { criterionId := c.id, pass := false,
          message := "Check failed: " ++ errorMessage, details := none, skipped := none })
    ∧ (∀ (e : AnalysisEngine) (c : EngineCriterion) (client : LLMClient),
      c.requiresLLM = true → e.aiEnabled = false → e.llmClient = some client →
      runCriterion e c =
        { criterionId := c.id, pass := false, message := "Requires --ai flag",
          details := none, skipped := some true }) := by
  refine ⟨?_, ?_, ?_, ?_, ?_⟩
  · intro pillars repoPath projectInfo o
    exact ⟨rfl, rfl⟩
  · intro pillars repoPath projectInfo
    exact ⟨rfl, rfl⟩
  · intro e c result hreq hai hcl hcheck
    unfold runCriterion
    simp [hreq, hai, hcl, hcheck]
  · intro e c errorMessage hreq hai hcl hcheck
    unfold runCriterion
    simp [hreq, hai, hcl, hcheck]
  · intro e c client hreq hai hcl
    unfold runCriterion
    simp [hreq, hai]

end AgentReadiness
